import Mathlib

/-
Verification of the Veritas investigation orchestrator.

This file gives a shallow embedding of the scoring, blending, verdict-tiering,
market-analysis, audit-fetch error handling and request-deduplication logic of
the Veritas code base (src/lib/services/VeritasInvestigator.ts,
src/lib/api/market.ts, src/lib/api/rugcheck.ts, src/lib/api/dexscreener.ts,
src/app/api/analyze-fast/route.ts), and proves the stated properties of the
specification against it.

Modelling conventions:
- JavaScript numbers are modelled as rationals; all score arithmetic in the
  source uses only integer constants, comparisons, and one division.
- Nullable strings are modelled as Option String with explicit JavaScript
  truthiness (null/undefined and the empty string are falsy).
- The external collaborators (ledger, market aggregator, audit service,
  screenshot service, AI, offender registry) are modelled as an environment
  record holding the value each fetch would settle with; the orchestrator is a
  pure function of that environment which also reports which fetches it issued.
-/

namespace Veritas

/-- JavaScript truthiness of a nullable string value: null/undefined and the
empty string are falsy, every other string is truthy. -/
def jsTruthy : Option String → Bool
  | none => false
  | some s => s != ""

/-- JavaScript `a || b` on nullable strings: yields `a` when `a` is truthy,
otherwise `b`. -/
def jsOr (a b : Option String) : Option String :=
  if jsTruthy a then a else b

/-- JavaScript `a || d` with a string default: yields the string in `a` when
`a` is truthy, otherwise the default `d`. -/
def jsOrD (a : Option String) (d : String) : String :=
  if jsTruthy a then Option.getD a "" else d

/-- Case-folded character list of a string (used for the case-insensitive
regular-expression tests of the source). -/
def lowerChars (s : String) : List Char := List.map Char.toLower s.toList

/-- Does any suffix of the list satisfy the predicate (regex search semantics:
a match may start anywhere). -/
def anySuffix (p : List Char → Bool) : List Char → Bool
  | [] => p []
  | c :: cs => p (c :: cs) || anySuffix p cs

/-- Case-sensitive substring test, JavaScript `hay.includes(needle)`. -/
def strIncludes (needle hay : String) : Bool :=
  anySuffix (List.isPrefixOf needle.toList) hay.toList

/-- Case-insensitive substring test (a case-insensitive regex alternative of
plain literals reduces to this). -/
def containsCI (needle hay : String) : Bool :=
  anySuffix (List.isPrefixOf (lowerChars needle)) (lowerChars hay)

/-- The literal part of the reuse pattern `VISUAL ASSET REUSE:\s*YES|NO`,
case-folded. -/
def reuseTagChars : List Char := "visual asset reuse:".toList

/-- Match of the reuse pattern at the head of a case-folded character list:
the literal tag, then any run of whitespace, then the given word. -/
def reuseMatchAt (word : List Char) (l : List Char) : Bool :=
  List.isPrefixOf reuseTagChars l &&
    List.isPrefixOf word (List.dropWhile Char.isWhitespace (List.drop 19 l))

/-- Embedding of the source regex test `/VISUAL ASSET REUSE:\s*YES/i.test(s)`. -/
def testReuseYes (s : String) : Bool :=
  anySuffix (reuseMatchAt "yes".toList) (lowerChars s)

/-- Embedding of the source regex test `/VISUAL ASSET REUSE:\s*NO/i.test(s)`. -/
def testReuseNo (s : String) : Bool :=
  anySuffix (reuseMatchAt "no".toList) (lowerChars s)

/-- The meme-culture allow-list of the scam-template override
(VeritasInvestigator.ts line 255), an alternation of plain literals. -/
def memeKeywords : List String :=
  ["meme culture", "meme aesthetic", "thematic", "standard for", "pepe",
   "wojak", "doge", "iconic meme", "cultural", "tribute", "community meme"]

/-- Embedding of the source regex test
`/meme culture|meme aesthetic|thematic|standard for|pepe|wojak|doge|iconic meme|cultural|tribute|community meme/i.test(s)`. -/
def testMeme (s : String) : Bool :=
  List.any memeKeywords (fun k => containsCI k s)

/-! ## Market analysis (src/lib/api/market.ts) -/

/-- Raw trading-pair data handed downstream by the market-data fetcher
(DexScreenerPairData, src/lib/api/dexscreener.ts lines 35-44). -/
structure DexScreenerPairData where
  liquidity : ℚ
  marketCap : ℚ
  volume24h : ℚ
  buys24h : ℚ
  sells24h : ℚ
  priceChange24h : ℚ
  pairCreatedAt : ℚ
  ageInHours : ℚ
  deriving DecidableEq

/-- Bot-activity classification levels of market.ts. -/
inductive BotActivityLevel where
  | low
  | medium
  | high
  deriving DecidableEq

/-- Identity of each anomaly message pushed by detectBotActivity; the
human-readable message strings (which interpolate formatted numbers) are
abstracted to their identity tags. -/
inductive AnomalyTag where
  | liquidityBelowOnePercent
  | lowLiquidity
  | honeypotRisk
  | abnormalTrading
  | fakeVolume
  | suspiciousVolume
  deriving DecidableEq

/-- Embedding of detectBotActivity (market.ts lines 26-62): accumulate risk
points per threshold and map the total to a level via fixed cut points. -/
def detectBotActivity ( liquidityRatio buySellRatio washTradeScore : ℚ) :
    BotActivityLevel × List AnomalyTag :=
  let lp : List AnomalyTag × Nat :=
    if liquidityRatio < 1 then ([AnomalyTag.liquidityBelowOnePercent], 3)
    else if liquidityRatio < 5 then ([AnomalyTag.lowLiquidity], 1)
    else ([], 0)
  let bp : List AnomalyTag × Nat :=
    if buySellRatio > 20 then ([AnomalyTag.honeypotRisk], 3)
    else if buySellRatio > 10 then ([AnomalyTag.abnormalTrading], 2)
    else ([], 0)
  let wp : List AnomalyTag × Nat :=
    if washTradeScore > 100 then ([AnomalyTag.fakeVolume], 3)
    else if washTradeScore > 50 then ([AnomalyTag.suspiciousVolume], 2)
    else ([], 0)
  let riskPoints := lp.2 + bp.2 + wp.2
  let level : BotActivityLevel :=
    if riskPoints ≥ 5 then BotActivityLevel.high
    else if riskPoints ≥ 2 then BotActivityLevel.medium
    else BotActivityLevel.low
  (level, lp.1 ++ bp.1 ++ wp.1)

/-- Result record of analyzeMarketData (market.ts lines 10-24). -/
structure MarketAnalysis where
  liquidity : ℚ
  marketCap : ℚ
  volume24h : ℚ
  buys24h : ℚ
  sells24h : ℚ
  priceChange24h : ℚ
  pairCreatedAt : ℚ
  ageInHours : ℚ
  liquidityRatio : ℚ
  buySellRatio : ℚ
  washTradeScore : ℚ
  botActivity : BotActivityLevel
  anomalies : List AnomalyTag
  deriving DecidableEq

/-- Embedding of analyzeMarketData (market.ts lines 67-97): derives the three
guarded ratios from pre-fetched pair data and classifies bot activity. -/
def analyzeMarketData (pairData : DexScreenerPairData) : MarketAnalysis :=
  let liquidity := pairData.liquidity
  let marketCap := pairData.marketCap
  let volume24h := pairData.volume24h
  let buys24h := pairData.buys24h
  let sells24h := pairData.sells24h
  let liquidityRatio := if marketCap > 0 then liquidity / marketCap * 100 else 0
  let buySellRatio := if sells24h > 0 then buys24h / sells24h else buys24h
  let washTradeScore := if liquidity > 0 then volume24h / liquidity else 0
  let bot := detectBotActivity liquidityRatio buySellRatio washTradeScore
  { liquidity := liquidity
    marketCap := marketCap
    volume24h := volume24h
    buys24h := buys24h
    sells24h := sells24h
    priceChange24h := pairData.priceChange24h
    pairCreatedAt := pairData.pairCreatedAt
    ageInHours := pairData.ageInHours
    liquidityRatio := liquidityRatio
    buySellRatio := buySellRatio
    washTradeScore := washTradeScore
    botActivity := bot.1
    anomalies := bot.2 }

/-! ## Deterministic trust scorer
(VeritasInvestigator.computeTrustScore, lines 422-465, and its duplicate
_computeDeterministicScore in src/app/api/analyze-fast/route.ts lines 114-143) -/

/-- The `{ liquidity; marketCap }` slice of market data consumed by the
deterministic scorer (its TypeScript parameter type). -/
structure MarketCore where
  liquidity : ℚ
  marketCap : ℚ
  deriving DecidableEq

/-- Output of analyzeCreator: the creator profile consumed by the scorer. -/
structure CreatorStatus where
  creatorAddress : String
  creatorPercentage : ℚ
  isDumped : Bool
  isWhale : Bool
  deriving DecidableEq

/-- A named risk finding of the audit (RugCheck) report. -/
structure RugCheckRisk where
  name : String
  description : String
  level : String
  score : ℚ
  deriving DecidableEq

/-- Audit report structure (rugcheck.ts RugCheckReport); the nested tokenMeta
object is flattened into its two optional fields. -/
structure RugCheckReport where
  score : ℚ
  risks : List RugCheckRisk
  creator : Option String
  mint : Option String
  metaName : Option String
  metaSymbol : Option String
  deriving DecidableEq

/-- Embedding of VeritasInvestigator.computeTrustScore (lines 422-465):
start at 100, subtract fixed penalties per condition, clamp into [0, 88]. -/
def computeTrustScore (mintAuth freezeAuth : Option String) (top10Percentage : ℚ)
    (marketData : Option MarketCore) (creatorStatus : CreatorStatus)
    (rugCheck : Option RugCheckReport) (ageInHours : ℚ) : ℚ :=
  let score : ℚ := 100
  let score := if jsTruthy mintAuth then score - 40 else score
  let score := if jsTruthy freezeAuth then score - 40 else score
  let score :=
    if top10Percentage > 50 then score - 15
    else if top10Percentage > 30 then score - 10
    else score
  let score := if creatorStatus.isDumped then score - 15 else score
  let score := if creatorStatus.isWhale then score - 10 else score
  let score :=
    match marketData with
    | some md =>
      if md.liquidity < 5000 then score - 20
      else if md.marketCap > 0 then
        let liqRatio := md.liquidity / md.marketCap
        if liqRatio < 2 / 100 then score - 15 else score
      else score
    | none => score
  let score := if ageInHours < 1 then score - 10 else score
  let score :=
    match rugCheck with
    | some rc =>
      if rc.score > 500 then score - 20
      else if rc.score > 200 then score - 10
      else score
    | none => score
  min 88 (max 0 score)

/-- Embedding of the scorer duplicated in the fast route,
_computeDeterministicScore (src/app/api/analyze-fast/route.ts lines 114-143). -/
def fastComputeDeterministicScore (mintAuth freezeAuth : Option String)
    (top10Percentage : ℚ) (marketData : Option MarketCore)
    (creatorStatus : CreatorStatus) (rugCheck : Option RugCheckReport)
    (ageInHours : ℚ) : ℚ :=
  let score : ℚ := 100
  let score := if jsTruthy mintAuth then score - 40 else score
  let score := if jsTruthy freezeAuth then score - 40 else score
  let score :=
    if top10Percentage > 50 then score - 15
    else if top10Percentage > 30 then score - 10
    else score
  let score := if creatorStatus.isDumped then score - 15 else score
  let score := if creatorStatus.isWhale then score - 10 else score
  let score :=
    match marketData with
    | some md =>
      if md.liquidity < 5000 then score - 20
      else if md.marketCap > 0 then
        let liqRatio := md.liquidity / md.marketCap
        if liqRatio < 2 / 100 then score - 15 else score
      else score
    | none => score
  let score := if ageInHours < 1 then score - 10 else score
  let score :=
    match rugCheck with
    | some rc =>
      if rc.score > 500 then score - 20
      else if rc.score > 200 then score - 10
      else score
    | none => score
  min 88 (max 0 score)

/-- Reference scorer written from the words of the specification (section 4.4):
100 minus a penalty for each triggered condition, clamped to [0, 88]. The
liquidity-ratio clause reads a ratio under 2 percent as requiring a positive
market cap (a ratio over a non-positive denominator is not a defined fraction
of market cap). -/
def specReferenceScore (mintAuth freezeAuth : Option String) (top10Percentage : ℚ)
    (marketData : Option MarketCore) (creatorStatus : CreatorStatus)
    (rugCheck : Option RugCheckReport) (ageInHours : ℚ) : ℚ :=
  max 0 (min 88 (100
    - (if jsTruthy mintAuth then 40 else 0)
    - (if jsTruthy freezeAuth then 40 else 0)
    - (if top10Percentage > 50 then 15 else if top10Percentage > 30 then 10 else 0)
    - (if creatorStatus.isDumped then 15 else 0)
    - (if creatorStatus.isWhale then 10 else 0)
    - (match marketData with
       | some md =>
         if md.liquidity < 5000 then 20
         else if md.marketCap > 0 ∧ md.liquidity / md.marketCap < 2 / 100 then 15
         else 0
       | none => 0)
    - (if ageInHours < 1 then 10 else 0)
    - (match rugCheck with
       | some rc => if rc.score > 500 then 20 else if rc.score > 200 then 10 else 0
       | none => 0)))

/-! ## Penalty decomposition of the scorer (proof infrastructure) -/

/-- Penalty for an enabled mint authority. -/
def penMint (mintAuth : Option String) : ℚ := if jsTruthy mintAuth then 40 else 0

/-- Penalty for an enabled freeze authority. -/
def penFreeze (freezeAuth : Option String) : ℚ := if jsTruthy freezeAuth then 40 else 0

/-- Penalty for top-10 holder concentration. -/
def penTop (top10Percentage : ℚ) : ℚ :=
  if top10Percentage > 50 then 15 else if top10Percentage > 30 then 10 else 0

/-- Penalty for a creator who dumped. -/
def penDump (creatorStatus : CreatorStatus) : ℚ :=
  if creatorStatus.isDumped then 15 else 0

/-- Penalty for a whale creator. -/
def penWhale (creatorStatus : CreatorStatus) : ℚ :=
  if creatorStatus.isWhale then 10 else 0

/-- Penalty for thin liquidity. -/
def penLiq (marketData : Option MarketCore) : ℚ :=
  match marketData with
  | some md =>
    if md.liquidity < 5000 then 20
    else if md.marketCap > 0 then
      if md.liquidity / md.marketCap < 2 / 100 then 15 else 0
    else 0
  | none => 0

/-- Penalty for a brand-new pair. -/
def penAge (ageInHours : ℚ) : ℚ := if ageInHours < 1 then 10 else 0

/-- Penalty for a risky audit score. -/
def penRug (rugCheck : Option RugCheckReport) : ℚ :=
  match rugCheck with
  | some rc => if rc.score > 500 then 20 else if rc.score > 200 then 10 else 0
  | none => 0

/-- Rewriting step: a conditional subtraction equals subtracting a conditional
penalty. -/
theorem sub_ite_step (c : Prop) [Decidable c] (s k : ℚ) :
    (if c then s - k else s) = s - (if c then k else 0) := by
  split_ifs <;> ring

/-- Rewriting step: a conditional between two subtractions equals subtracting a
conditional penalty. -/
theorem sub_ite_both (c : Prop) [Decidable c] (s k1 k2 : ℚ) :
    (if c then s - k1 else s - k2) = s - (if c then k1 else k2) := by
  split_ifs <;> ring

/-- The sequential penalty subtraction of computeTrustScore equals 100 minus
the sum of the individual penalties, clamped. -/
theorem computeTrustScore_eq_pen (mintAuth freezeAuth : Option String)
    (top10Percentage : ℚ) (marketData : Option MarketCore)
    (creatorStatus : CreatorStatus) (rugCheck : Option RugCheckReport)
    (ageInHours : ℚ) :
    computeTrustScore mintAuth freezeAuth top10Percentage marketData creatorStatus
      rugCheck ageInHours
      = min 88 (max 0 (100 - penMint mintAuth - penFreeze freezeAuth
          - penTop top10Percentage - penDump creatorStatus - penWhale creatorStatus
          - penLiq marketData - penAge ageInHours - penRug rugCheck)) := by
  cases marketData <;> cases rugCheck <;>
    simp only [computeTrustScore, penMint, penFreeze, penTop, penDump, penWhale,
      penLiq, penAge, penRug, sub_ite_step, sub_ite_both, sub_zero]

/-- Clamping into [0, 88] is monotone. -/
theorem clamp_mono {x y : ℚ} (h : x ≤ y) :
    min 88 (max 0 x) ≤ min 88 (max 0 y) :=
  min_le_min le_rfl (max_le_max le_rfl h)

theorem penMint_nonneg (a : Option String) : 0 ≤ penMint a := by
  unfold penMint; split_ifs <;> norm_num

theorem penFreeze_nonneg (a : Option String) : 0 ≤ penFreeze a := by
  unfold penFreeze; split_ifs <;> norm_num

theorem penMint_of_falsy {a : Option String} (h : jsTruthy a = false) :
    penMint a = 0 := by
  unfold penMint; rw [h]; norm_num

theorem penFreeze_of_falsy {a : Option String} (h : jsTruthy a = false) :
    penFreeze a = 0 := by
  unfold penFreeze; rw [h]; norm_num

theorem penTop_mono {t t' : ℚ} (h : t ≤ t') : penTop t ≤ penTop t' := by
  unfold penTop; split_ifs <;> linarith

theorem penLiq_nonneg (md : Option MarketCore) : 0 ≤ penLiq md := by
  unfold penLiq; cases md <;> dsimp only <;> [norm_num; (split_ifs <;> norm_num)]

theorem penLiq_anti {l l' mc : ℚ} (h : l' ≤ l) :
    penLiq (some (MarketCore.mk l mc)) ≤ penLiq (some (MarketCore.mk l' mc)) := by
  have hval : ∀ x : ℚ, penLiq (some (MarketCore.mk x mc))
      = if x < 5000 then 20
        else if mc > 0 then (if x / mc < 2 / 100 then 15 else 0) else 0 := by
    intro x; rfl
  rw [hval, hval]
  by_cases h4 : l' < 5000
  · by_cases h1 : l < 5000
    · rw [if_pos h1, if_pos h4]
    · rw [if_neg h1, if_pos h4]
      split_ifs <;> norm_num
  · have h1 : ¬l < 5000 := fun hl => h4 (lt_of_le_of_lt h hl)
    rw [if_neg h1, if_neg h4]
    by_cases hmc : mc > 0
    · rw [if_pos hmc, if_pos hmc]
      by_cases h3 : l / mc < 2 / 100
      · have hdiv : l' / mc ≤ l / mc := by gcongr
        rw [if_pos h3, if_pos (lt_of_le_of_lt hdiv h3)]
      · rw [if_neg h3]
        split_ifs <;> norm_num
    · rw [if_neg hmc, if_neg hmc]

theorem penAge_anti {a a' : ℚ} (h : a' ≤ a) : penAge a ≤ penAge a' := by
  unfold penAge; split_ifs <;> linarith

theorem penRug_mono {r r' : ℚ} (risks : List RugCheckRisk) (c m n s : Option String)
    (h : r ≤ r') :
    penRug (some (RugCheckReport.mk r risks c m n s))
      ≤ penRug (some (RugCheckReport.mk r' risks c m n s)) := by
  unfold penRug; dsimp only; split_ifs <;> linarith

theorem penRug_nonneg (rc : Option RugCheckReport) : 0 ≤ penRug rc := by
  unfold penRug; cases rc <;> dsimp only <;> [norm_num; (split_ifs <;> norm_num)]

theorem penLiq_none : penLiq none = 0 := rfl

theorem penRug_none : penRug none = 0 := rfl

theorem penDump_mk (a : String) (p : ℚ) (d w : Bool) :
    penDump (CreatorStatus.mk a p d w) = if d then 15 else 0 := rfl

theorem penWhale_mk (a : String) (p : ℚ) (d w : Bool) :
    penWhale (CreatorStatus.mk a p d w) = if w then 10 else 0 := rfl

/-- Fusing a nested conditional penalty into a conjunction. -/
theorem ite_nested_and (c1 c2 : Prop) [Decidable c1] [Decidable c2] (k : ℚ) :
    (if c1 then (if c2 then k else 0) else 0) = if c1 ∧ c2 then k else 0 := by
  split_ifs <;> first | rfl | tauto

/-- The two clamp orders agree because the bounds are ordered. -/
theorem clamp_comm (x : ℚ) : min 88 (max 0 x) = max 0 (min 88 x) := by
  rcases le_total x 0 with h | h
  · have hx88 : x ≤ (88 : ℚ) := h.trans (by norm_num)
    rw [max_eq_left h, min_eq_right hx88, max_eq_left h]
    norm_num
  · rcases le_total x 88 with h2 | h2
    · rw [max_eq_right h, min_eq_right h2, max_eq_right h]
    · rw [max_eq_right h, min_eq_left h2]
      norm_num

/-- C3: the deterministic scorer implements the reference definition of the
specification for all inputs — start at 100, subtract the fixed penalty of
each triggered condition, clamp into [0, 88] — and the rug-pattern scenario
(mint set, freeze set, top-10 at 80 percent, creator dumped, liquidity 400
dollars) scores exactly 0. -/
theorem claim3_scorer_matches_spec_reference :
    (∀ (mintAuth freezeAuth : Option String) (top10Percentage : ℚ)
        (marketData : Option MarketCore) (creatorStatus : CreatorStatus)
        (rugCheck : Option RugCheckReport) (ageInHours : ℚ),
      computeTrustScore mintAuth freezeAuth top10Percentage marketData
          creatorStatus rugCheck ageInHours
        = specReferenceScore mintAuth freezeAuth top10Percentage marketData
            creatorStatus rugCheck ageInHours)
  ∧ computeTrustScore (some "MintKey") (some "FreezeKey") 80
      (some (MarketCore.mk 400 100000))
      (CreatorStatus.mk "CreatorKey" 0 true false) none 72 = 0 := by
  constructor
  · intro mintAuth freezeAuth top10Percentage marketData creatorStatus rugCheck ageInHours
    rw [computeTrustScore_eq_pen, clamp_comm]
    cases marketData <;>
      simp only [specReferenceScore, penMint, penFreeze, penTop, penDump, penWhale,
        penLiq, penAge, penRug, ite_nested_and]
  · rw [computeTrustScore_eq_pen]
    norm_num [penMint, penFreeze, penTop, penDump, penWhale, penLiq, penAge,
      penRug, jsTruthy]
    rw [if_neg (by decide : ¬("MintKey" = "")), if_neg (by decide : ¬("FreezeKey" = ""))]
    norm_num

/-- C4: for every combination of inputs the deterministic scorer lies in
[0, 88], and its output never increases when any single penalty condition is
toggled from false to true (equivalently, the score is antitone in each
penalty-driving input) with everything else held constant. -/
theorem claim4_scorer_range_and_monotone :
    (∀ ma fa (t : ℚ) md cs rc (age : ℚ),
        0 ≤ computeTrustScore ma fa t md cs rc age
          ∧ computeTrustScore ma fa t md cs rc age ≤ 88)
  ∧ (∀ ma ma' fa (t : ℚ) md cs rc (age : ℚ), jsTruthy ma = false →
        computeTrustScore ma' fa t md cs rc age
          ≤ computeTrustScore ma fa t md cs rc age)
  ∧ (∀ ma fa fa' (t : ℚ) md cs rc (age : ℚ), jsTruthy fa = false →
        computeTrustScore ma fa' t md cs rc age
          ≤ computeTrustScore ma fa t md cs rc age)
  ∧ (∀ ma fa (t t' : ℚ) md cs rc (age : ℚ), t ≤ t' →
        computeTrustScore ma fa t' md cs rc age
          ≤ computeTrustScore ma fa t md cs rc age)
  ∧ (∀ ma fa (t : ℚ) md a (p : ℚ) w rc (age : ℚ),
        computeTrustScore ma fa t md (CreatorStatus.mk a p true w) rc age
          ≤ computeTrustScore ma fa t md (CreatorStatus.mk a p false w) rc age)
  ∧ (∀ ma fa (t : ℚ) md a (p : ℚ) d rc (age : ℚ),
        computeTrustScore ma fa t md (CreatorStatus.mk a p d true) rc age
          ≤ computeTrustScore ma fa t md (CreatorStatus.mk a p d false) rc age)
  ∧ (∀ ma fa (t l l' mc : ℚ) cs rc (age : ℚ), l' ≤ l →
        computeTrustScore ma fa t (some (MarketCore.mk l' mc)) cs rc age
          ≤ computeTrustScore ma fa t (some (MarketCore.mk l mc)) cs rc age)
  ∧ (∀ ma fa (t : ℚ) md cs rc (age : ℚ),
        computeTrustScore ma fa t (some md) cs rc age
          ≤ computeTrustScore ma fa t none cs rc age)
  ∧ (∀ ma fa (t : ℚ) md cs rc (age age' : ℚ), age' ≤ age →
        computeTrustScore ma fa t md cs rc age'
          ≤ computeTrustScore ma fa t md cs rc age)
  ∧ (∀ ma fa (t : ℚ) md cs (r r' : ℚ) risks c m n s (age : ℚ), r ≤ r' →
        computeTrustScore ma fa t md cs (some (RugCheckReport.mk r' risks c m n s)) age
          ≤ computeTrustScore ma fa t md cs (some (RugCheckReport.mk r risks c m n s)) age)
  ∧ (∀ ma fa (t : ℚ) md cs rc (age : ℚ),
        computeTrustScore ma fa t md cs (some rc) age
          ≤ computeTrustScore ma fa t md cs none age) := by
  refine ⟨?_, ?_, ?_, ?_, ?_, ?_, ?_, ?_, ?_, ?_, ?_⟩
  · intro ma fa t md cs rc age
    rw [computeTrustScore_eq_pen]
    exact ⟨le_min (by norm_num) (le_max_left 0 _), min_le_left _ _⟩
  · intro ma ma' fa t md cs rc age h
    rw [computeTrustScore_eq_pen, computeTrustScore_eq_pen]
    apply clamp_mono
    have h1 := penMint_nonneg ma'
    have h2 := penMint_of_falsy h
    linarith
  · intro ma fa fa' t md cs rc age h
    rw [computeTrustScore_eq_pen, computeTrustScore_eq_pen]
    apply clamp_mono
    have h1 := penFreeze_nonneg fa'
    have h2 := penFreeze_of_falsy h
    linarith
  · intro ma fa t t' md cs rc age h
    rw [computeTrustScore_eq_pen, computeTrustScore_eq_pen]
    apply clamp_mono
    have h1 := penTop_mono h
    linarith
  · intro ma fa t md a p w rc age
    rw [computeTrustScore_eq_pen, computeTrustScore_eq_pen]
    apply clamp_mono
    simp only [penDump_mk, penWhale_mk, if_true, if_false]
    split_ifs <;> linarith
  · intro ma fa t md a p d rc age
    rw [computeTrustScore_eq_pen, computeTrustScore_eq_pen]
    apply clamp_mono
    simp only [penDump_mk, penWhale_mk, if_true, if_false]
    split_ifs <;> linarith
  · intro ma fa t l l' mc cs rc age h
    rw [computeTrustScore_eq_pen, computeTrustScore_eq_pen]
    apply clamp_mono
    have h1 := @penLiq_anti l l' mc h
    linarith
  · intro ma fa t md cs rc age
    rw [computeTrustScore_eq_pen, computeTrustScore_eq_pen]
    apply clamp_mono
    have h1 := penLiq_nonneg (some md)
    rw [penLiq_none]
    linarith
  · intro ma fa t md cs rc age age' h
    rw [computeTrustScore_eq_pen, computeTrustScore_eq_pen]
    apply clamp_mono
    have h1 := penAge_anti h
    linarith
  · intro ma fa t md cs r r' risks c m n s age h
    rw [computeTrustScore_eq_pen, computeTrustScore_eq_pen]
    apply clamp_mono
    have h1 := penRug_mono risks c m n s h
    linarith
  · intro ma fa t md cs rc age
    rw [computeTrustScore_eq_pen, computeTrustScore_eq_pen]
    apply clamp_mono
    have h1 := penRug_nonneg (some rc)
    rw [penRug_none]
    linarith

/-- Witness for C4 at concrete inputs: the clean-token scenario is in range
and each toggle instance holds at explicit numbers. -/
theorem claim4_scorer_range_and_monotone_witness :
    (0 ≤ computeTrustScore none none 12 (some (MarketCore.mk 50000 200000))
          (CreatorStatus.mk "c" 5 false false) none 72
      ∧ computeTrustScore none none 12 (some (MarketCore.mk 50000 200000))
          (CreatorStatus.mk "c" 5 false false) none 72 ≤ 88)
  ∧ computeTrustScore (some "M") none 12 (some (MarketCore.mk 50000 200000))
        (CreatorStatus.mk "c" 5 false false) none 72
      ≤ computeTrustScore none none 12 (some (MarketCore.mk 50000 200000))
          (CreatorStatus.mk "c" 5 false false) none 72
  ∧ computeTrustScore none (some "F") 12 (some (MarketCore.mk 50000 200000))
        (CreatorStatus.mk "c" 5 false false) none 72
      ≤ computeTrustScore none none 12 (some (MarketCore.mk 50000 200000))
          (CreatorStatus.mk "c" 5 false false) none 72
  ∧ computeTrustScore none none 80 (some (MarketCore.mk 50000 200000))
        (CreatorStatus.mk "c" 5 false false) none 72
      ≤ computeTrustScore none none 12 (some (MarketCore.mk 50000 200000))
          (CreatorStatus.mk "c" 5 false false) none 72
  ∧ computeTrustScore none none 12 (some (MarketCore.mk 400 200000))
        (CreatorStatus.mk "c" 5 false false) none 72
      ≤ computeTrustScore none none 12 (some (MarketCore.mk 50000 200000))
          (CreatorStatus.mk "c" 5 false false) none 72
  ∧ computeTrustScore none none 12 (some (MarketCore.mk 50000 200000))
        (CreatorStatus.mk "c" 5 false false) none 0
      ≤ computeTrustScore none none 12 (some (MarketCore.mk 50000 200000))
          (CreatorStatus.mk "c" 5 false false) none 72
  ∧ computeTrustScore none none 12 (some (MarketCore.mk 50000 200000))
        (CreatorStatus.mk "c" 5 false false)
        (some (RugCheckReport.mk 600 [] none none none none)) 72
      ≤ computeTrustScore none none 12 (some (MarketCore.mk 50000 200000))
          (CreatorStatus.mk "c" 5 false false)
          (some (RugCheckReport.mk 20 [] none none none none)) 72 :=
  ⟨claim4_scorer_range_and_monotone.1 none none 12 _ _ none 72,
   claim4_scorer_range_and_monotone.2.1 none (some "M") none 12 _ _ none 72 rfl,
   claim4_scorer_range_and_monotone.2.2.1 none none (some "F") 12 _ _ none 72 rfl,
   claim4_scorer_range_and_monotone.2.2.2.1 none none 12 80 _ _ none 72 (by norm_num),
   claim4_scorer_range_and_monotone.2.2.2.2.2.2.1 none none 12 50000 400 200000 _ none 72
     (by norm_num),
   claim4_scorer_range_and_monotone.2.2.2.2.2.2.2.2.1 none none 12 _ _ none 72 0
     (by norm_num),
   claim4_scorer_range_and_monotone.2.2.2.2.2.2.2.2.2.1 none none 12 _ _ 20 600 [] none
     none none none 72 (by norm_num)⟩

/-- C9: the deterministic scorer duplicated in the fast route is extensionally
equal to the orchestrator scorer on every input. -/
theorem claim9_fast_scorer_equals_orchestrator :
    ∀ (mintAuth freezeAuth : Option String) (top10Percentage : ℚ)
      (marketData : Option MarketCore) (creatorStatus : CreatorStatus)
      (rugCheck : Option RugCheckReport) (ageInHours : ℚ),
      fastComputeDeterministicScore mintAuth freezeAuth top10Percentage marketData
          creatorStatus rugCheck ageInHours
        = computeTrustScore mintAuth freezeAuth top10Percentage marketData
            creatorStatus rugCheck ageInHours :=
  fun _ _ _ _ _ _ _ => rfl

/-- C10: every derived market ratio is division-guarded — liquidity ratio is 0
on a non-positive market cap, the buy/sell ratio falls back to the raw buy
count on a non-positive sell count, and the wash-trade score is 0 on
non-positive liquidity. -/
theorem claim10_market_ratio_guards :
    (∀ p : DexScreenerPairData, p.marketCap ≤ 0 →
        MarketAnalysis.liquidityRatio (analyzeMarketData p) = 0)
  ∧ (∀ p : DexScreenerPairData, p.sells24h ≤ 0 →
        MarketAnalysis.buySellRatio (analyzeMarketData p) = p.buys24h)
  ∧ (∀ p : DexScreenerPairData, p.liquidity ≤ 0 →
        MarketAnalysis.washTradeScore (analyzeMarketData p) = 0) := by
  refine ⟨?_, ?_, ?_⟩ <;> intro p h <;>
    simp only [analyzeMarketData] <;> rw [if_neg (not_lt.mpr h)]

/-- Witness for C10 at a concrete all-degenerate pair (zero market cap, zero
sells, zero liquidity). -/
theorem claim10_market_ratio_guards_witness :
    MarketAnalysis.liquidityRatio
        (analyzeMarketData (DexScreenerPairData.mk 0 0 0 5 0 0 0 0)) = 0
  ∧ MarketAnalysis.buySellRatio
        (analyzeMarketData (DexScreenerPairData.mk 0 0 0 5 0 0 0 0)) = 5
  ∧ MarketAnalysis.washTradeScore
        (analyzeMarketData (DexScreenerPairData.mk 0 0 0 5 0 0 0 0)) = 0 :=
  ⟨claim10_market_ratio_guards.1 _ (by norm_num),
   claim10_market_ratio_guards.2.1 _ (by norm_num),
   claim10_market_ratio_guards.2.2 _ (by norm_num)⟩

/-! ## Investigation orchestrator (src/lib/services/VeritasInvestigator.ts)

The orchestrator is embedded as a pure function of an environment record that
holds the value each external fetch would settle with, together with an
explicit trace of the fetch effects it issues. -/

/-- Verdict tiers of an investigation result. -/
inductive Verdict where
  | safe
  | caution
  | danger
  deriving DecidableEq

/-- Whether visual evidence was captured for the result. -/
inductive VisualEvidenceStatus where
  | captured
  | notCaptured
  deriving DecidableEq

/-- The visual-asset-reuse finding of the result. -/
inductive VisualAssetReuse where
  | yes
  | no
  | unknown
  deriving DecidableEq

/-- A record of the known-offender registry, as consumed by the orchestrator
(fields used by buildKnownScammerResult: prior token name, first-flagged date,
detection count). -/
structure ScammerRecord where
  tokenName : Option String
  flaggedAt : String
  scanCount : Nat
  deriving DecidableEq

/-- Parsed on-chain token facts returned by the ledger fetch. -/
structure TokenInfo where
  mintAuthority : Option String
  freezeAuthority : Option String
  supply : ℚ
  decimals : Nat
  deriving DecidableEq

/-- Social links extracted from the market aggregator. -/
structure TokenSocials where
  name : Option String
  symbol : Option String
  website : Option String
  twitter : Option String
  telegram : Option String
  discord : Option String
  imageUrl : Option String
  deriving DecidableEq

/-- Combined market-aggregator fetch result (socials plus pair data). -/
structure DexScreenerResult where
  socials : TokenSocials
  pairData : Option DexScreenerPairData
  deriving DecidableEq

/-- One top-holder entry of the holder-distribution fetch. -/
structure Holder where
  address : String
  balance : ℚ
  percentage : ℚ
  deriving DecidableEq

/-- Holder-distribution fetch result. -/
structure HolderResult where
  topHolders : List Holder
  top10Percentage : ℚ
  deriving DecidableEq

/-- Structured AI judgment, projected onto the fields the orchestrator logic
reads (score, narrative strings, optional visual analysis text). -/
structure UnifiedAnalysisResult where
  trustScore : ℚ
  summary : String
  criminalProfile : String
  degenComment : String
  visualAnalysis : Option String
  deriving DecidableEq

/-- Projection of the source InvestigationResult onto the fields the verified
properties concern: final score, verdict tier, visual-forensics status,
registry flag and creator-history counters. The narrative display strings
(summary, veritasSays, evidence lists) are omitted from the model. -/
structure InvestigationResult where
  trustScore : ℚ
  verdict : Verdict
  visualEvidenceStatus : VisualEvidenceStatus
  visualAssetReuse : VisualAssetReuse
  isKnownScammer : Bool
  creatorAddress : String
  previousTokens : Nat
  isSerialLauncher : Bool
  deriving DecidableEq

/-- Identity of each outbound fetch or collaborator call the orchestrator can
issue after the result cache misses. -/
inductive Effect where
  | fetchTokenInfo
  | checkScammer
  | fetchDex
  | fetchRugCheck
  | fetchHolders
  | fetchScreenshot
  | fetchCreatorHistory
  | aiCall
  | flagScammer
  deriving DecidableEq

/-- The two fatal error classes of investigate plus AI failure. -/
inductive InvError where
  | invalidAddress
  | tokenNotFound
  | aiFailed
  deriving DecidableEq

/-- Environment of one investigation: the value every external collaborator
would settle with, plus the live cache entry for the subject. -/
structure Env where
  tokenAddress : String
  cached : Option InvestigationResult
  validKey : Bool
  tokenInfo : Option TokenInfo
  knownScammer : Option ScammerRecord
  dexResult : DexScreenerResult
  rugCheckReport : Option RugCheckReport
  holderResult : HolderResult
  screenshot : Option String
  creatorHistoryLen : Nat
  aiResult : Option UnifiedAnalysisResult
  deriving DecidableEq

/-- Embedding of VeritasInvestigator.analyzeCreator (lines 536-551). -/
def analyzeCreator (mintAuth freezeAuth : Option String) (topHolders : List Holder)
    (supply : ℚ) : CreatorStatus :=
  let creatorAddress := jsOrD (jsOr mintAuth freezeAuth) "Unknown"
  let creatorPercentage :=
    if creatorAddress != "Unknown" then
      match List.find? (fun h => h.address == creatorAddress) topHolders with
      | some holding => holding.percentage
      | none => 0
    else 0
  let isDumped := creatorAddress != "Unknown" && creatorPercentage < 1 && supply > 0
  let isWhale := creatorPercentage > 20
  CreatorStatus.mk creatorAddress creatorPercentage isDumped isWhale

/-- Token supply adjusted by decimals (investigate lines 147-148). -/
def supplyOf (ti : TokenInfo) : ℚ := ti.supply / (10 : ℚ) ^ ti.decimals

/-- The website classification of investigate lines 173-179: a website URL is
real when present and not a social-network or messaging redirect. -/
def isRealWebsiteOf (websiteUrl : Option String) : Bool :=
  jsTruthy websiteUrl &&
    !(strIncludes "x.com" (Option.getD websiteUrl "")) &&
    !(strIncludes "twitter.com" (Option.getD websiteUrl "")) &&
    !(strIncludes "t.me" (Option.getD websiteUrl "")) &&
    !(strIncludes "telegram.me" (Option.getD websiteUrl ""))

/-- The screenshot value the pipeline works with: the capture result when a
real website URL exists, otherwise null (investigate lines 181-189). -/
def websiteScreenshotOf (env : Env) : Option String :=
  if isRealWebsiteOf env.dexResult.socials.website then env.screenshot else none

/-- Market analysis derived from the pair data of the environment. -/
def marketDataOf (env : Env) : Option MarketAnalysis :=
  Option.map analyzeMarketData env.dexResult.pairData

/-- Creator profile derived from ledger facts and holder distribution. -/
def creatorStatusOf (env : Env) (ti : TokenInfo) : CreatorStatus :=
  analyzeCreator ti.mintAuthority ti.freezeAuthority env.holderResult.topHolders
    (supplyOf ti)

/-- The deterministic score of the full pipeline, exactly as investigate
builds its computeTrustScore call (lines 234-242). -/
def detScoreOf (env : Env) (ti : TokenInfo) : ℚ :=
  computeTrustScore ti.mintAuthority ti.freezeAuthority
    env.holderResult.top10Percentage
    (Option.map (fun m => MarketCore.mk m.liquidity m.marketCap) (marketDataOf env))
    (creatorStatusOf env ti)
    env.rugCheckReport
    (match marketDataOf env with
     | some m => m.ageInHours
     | none => 0)

/-- The scam-template-nuke condition of investigate lines 251-259: a captured
screenshot, AI visual text asserting reuse, no meme-culture whitelist match,
and a blended score above 50. -/
def nukeCondition (websiteScreenshot visualAnalysis : Option String) (fs : ℚ) : Bool :=
  jsTruthy websiteScreenshot && jsTruthy visualAnalysis &&
    testReuseYes (Option.getD visualAnalysis "") &&
    !(testMeme (Option.getD visualAnalysis "")) &&
    decide (fs > 50)

/-- The blended final score of investigate lines 244-262: the minimum of the
deterministic and AI scores, hard-capped at 50 when the template nuke fires. -/
def finalScoreOf (det ai : ℚ) (websiteScreenshot visualAnalysis : Option String) : ℚ :=
  let fs := min det ai
  if nukeCondition websiteScreenshot visualAnalysis fs then 50 else fs

/-- Verdict tiering of investigate lines 264-265. -/
def tierVerdict (finalScore : ℚ) : Verdict :=
  if finalScore ≥ 70 then Verdict.safe
  else if finalScore ≥ 40 then Verdict.caution
  else Verdict.danger

/-- The full-pipeline result record of investigate (lines 282-415), projected
onto the modelled fields. -/
def fullResult (env : Env) (ti : TokenInfo) (ai : UnifiedAnalysisResult) :
    InvestigationResult :=
  let cs := creatorStatusOf env ti
  let ws := websiteScreenshotOf env
  let finalScore := finalScoreOf (detScoreOf env ti) ai.trustScore ws ai.visualAnalysis
  let visualTrust := jsTruthy ws && jsTruthy ai.visualAnalysis &&
    ((Option.getD ai.visualAnalysis "").trim != "")
  let rawVisual := if visualTrust then ai.visualAnalysis else none
  let hasReuseYes :=
    match rawVisual with
    | some v => testReuseYes v
    | none => false
  let hasReuseNo :=
    match rawVisual with
    | some v => testReuseNo v
    | none => false
  { trustScore := finalScore
    verdict := tierVerdict finalScore
    visualEvidenceStatus :=
      if visualTrust then VisualEvidenceStatus.captured
      else VisualEvidenceStatus.notCaptured
    visualAssetReuse :=
      if hasReuseYes then VisualAssetReuse.yes
      else if hasReuseNo then VisualAssetReuse.no
      else VisualAssetReuse.unknown
    isKnownScammer := false
    creatorAddress := cs.creatorAddress
    previousTokens := env.creatorHistoryLen
    isSerialLauncher := decide (env.creatorHistoryLen ≥ 2) }

/-- The fetch trace of the full pipeline: the parallel fan-outs of phases 2
and 3, the AI call, and the conditional registry write-back of phase 5. -/
def fullEffects (env : Env) (effs0 : List Effect) (finalVerdict : Verdict)
    (creatorTruthy : Bool) : List Effect :=
  effs0 ++ [Effect.fetchDex, Effect.fetchRugCheck, Effect.fetchHolders]
    ++ (if isRealWebsiteOf env.dexResult.socials.website
        then [Effect.fetchScreenshot] else [])
    ++ [Effect.fetchCreatorHistory, Effect.aiCall]
    ++ (if creatorTruthy && decide (finalVerdict = Verdict.danger)
        then [Effect.flagScammer] else [])

/-- Phases 2 to 5 of investigate: the data pipeline, AI call, blend, verdict
tiering and result assembly. AI failure is fatal (line 227-229). -/
def fullPipeline (env : Env) (ti : TokenInfo) (creatorAddress : Option String)
    (effs0 : List Effect) : Except InvError (InvestigationResult × List Effect) :=
  match env.aiResult with
  | none => Except.error InvError.aiFailed
  | some ai =>
    let r := fullResult env ti ai
    Except.ok (r, fullEffects env effs0 r.verdict (jsTruthy creatorAddress))

/-- Embedding of VeritasInvestigator.buildKnownScammerResult (lines 553-612),
projected onto the modelled fields: score 0, most severe verdict, no visual
evidence, registry metadata copied into the result. -/
def buildKnownScammerResult (_tokenAddress : String) (_ti : TokenInfo)
    (creatorAddress : String) (knownScammer : ScammerRecord) : InvestigationResult :=
  { trustScore := 0
    verdict := Verdict.danger
    visualEvidenceStatus := VisualEvidenceStatus.notCaptured
    visualAssetReuse := VisualAssetReuse.unknown
    isKnownScammer := true
    creatorAddress := creatorAddress
    previousTokens := knownScammer.scanCount
    isSerialLauncher := true }

/-- Embedding of VeritasInvestigator.investigate (lines 107-416): cache check,
address validation, ledger fetch, known-offender fast path, then the full
pipeline; paired with the trace of issued effects. -/
def investigate (env : Env) : Except InvError (InvestigationResult × List Effect) :=
  match env.cached with
  | some cachedResult => Except.ok (cachedResult, [])
  | none =>
    if env.validKey = false then Except.error InvError.invalidAddress
    else
      match env.tokenInfo with
      | none => Except.error InvError.tokenNotFound
      | some ti =>
        let creatorAddress := jsOr ti.mintAuthority ti.freezeAuthority
        if jsTruthy creatorAddress then
          match env.knownScammer with
          | some ks =>
            Except.ok (buildKnownScammerResult env.tokenAddress ti
                (Option.getD creatorAddress "") ks,
              [Effect.fetchTokenInfo, Effect.checkScammer])
          | none =>
            fullPipeline env ti creatorAddress [Effect.fetchTokenInfo, Effect.checkScammer]
        else fullPipeline env ti creatorAddress [Effect.fetchTokenInfo]

/-- Characterization of investigate on the full pipeline: with a cache miss, a
valid key, ledger facts present, no registry hit and an AI result, investigate
returns the assembled full result and its effect trace. -/
theorem investigate_full_eq (env : Env) (ti : TokenInfo) (ai : UnifiedAnalysisResult)
    (hc : env.cached = none) (hv : env.validKey = true) (hti : env.tokenInfo = some ti)
    (hks : env.knownScammer = none) (hai : env.aiResult = some ai) :
    investigate env
      = Except.ok (fullResult env ti ai,
          fullEffects env
            (if jsTruthy (jsOr ti.mintAuthority ti.freezeAuthority)
             then [Effect.fetchTokenInfo, Effect.checkScammer]
             else [Effect.fetchTokenInfo])
            (InvestigationResult.verdict (fullResult env ti ai))
            (jsTruthy (jsOr ti.mintAuthority ti.freezeAuthority))) := by
  cases hcr : jsTruthy (jsOr ti.mintAuthority ti.freezeAuthority) with
  | true => simp [investigate, hc, hv, hti, hks, hai, hcr, fullPipeline]
  | false => simp [investigate, hc, hv, hti, hks, hai, hcr, fullPipeline]

/-- Characterization of investigate on the known-offender fast path. -/
theorem investigate_scammer_eq (env : Env) (ti : TokenInfo) (ks : ScammerRecord)
    (hc : env.cached = none) (hv : env.validKey = true) (hti : env.tokenInfo = some ti)
    (hcr : jsTruthy (jsOr ti.mintAuthority ti.freezeAuthority) = true)
    (hks : env.knownScammer = some ks) :
    investigate env
      = Except.ok (buildKnownScammerResult env.tokenAddress ti
            (Option.getD (jsOr ti.mintAuthority ti.freezeAuthority) "") ks,
          [Effect.fetchTokenInfo, Effect.checkScammer]) := by
  simp [investigate, hc, hv, hti, hcr, hks]

/-- The blended final score never exceeds either blended input: the base is
their minimum, and the template nuke only fires above 50 and caps to 50. -/
theorem finalScoreOf_le (det a : ℚ) (ws va : Option String) :
    finalScoreOf det a ws va ≤ det ∧ finalScoreOf det a ws va ≤ a := by
  unfold finalScoreOf
  dsimp only
  split_ifs with h
  · unfold nukeCondition at h
    simp only [Bool.and_eq_true, decide_eq_true_eq] at h
    have hgt : 50 < min det a := h.2
    constructor
    · linarith [min_le_left det a]
    · linarith [min_le_right det a]
  · exact ⟨min_le_left _ _, min_le_right _ _⟩

/-- The verdict tiering function realizes the three score bands. -/
theorem tierVerdict_spec (s : ℚ) :
    (tierVerdict s = Verdict.safe ↔ 70 ≤ s)
  ∧ (tierVerdict s = Verdict.caution ↔ 40 ≤ s ∧ s < 70)
  ∧ (tierVerdict s = Verdict.danger ↔ s < 40) := by
  unfold tierVerdict
  split_ifs with h1 h2
  · exact ⟨iff_of_true rfl h1,
      iff_of_false (by decide) (by rintro ⟨h3, h4⟩; linarith),
      iff_of_false (by decide) (by intro h3; linarith)⟩
  · push_neg at h1
    exact ⟨iff_of_false (by decide) (by intro h3; linarith),
      iff_of_true rfl ⟨h2, h1⟩,
      iff_of_false (by decide) (by intro h3; linarith)⟩
  · push_neg at h1 h2
    exact ⟨iff_of_false (by decide) (by intro h3; linarith),
      iff_of_false (by decide) (by rintro ⟨h3, h4⟩; linarith),
      iff_of_true rfl h2⟩

/-- C1: ceiling invariant — for every investigation that completes the full
pipeline (cache miss, no known-offender short-circuit), the returned trust
score is at most the deterministic score and at most the AI score: the blend
takes their minimum and the template-abuse override can only lower it. -/
theorem claim1_ceiling_invariant (env : Env) (ti : TokenInfo)
    (ai : UnifiedAnalysisResult) (r : InvestigationResult) (effs : List Effect)
    (hc : env.cached = none) (hti : env.tokenInfo = some ti)
    (hks : env.knownScammer = none) (hai : env.aiResult = some ai)
    (hok : investigate env = Except.ok (r, effs)) :
    InvestigationResult.trustScore r ≤ detScoreOf env ti
      ∧ InvestigationResult.trustScore r ≤ UnifiedAnalysisResult.trustScore ai := by
  cases hv : env.validKey with
  | false => simp [investigate, hc, hv] at hok
  | true =>
    rw [investigate_full_eq env ti ai hc hv hti hks hai] at hok
    simp only [Except.ok.injEq, Prod.mk.injEq] at hok
    obtain ⟨hr, he⟩ := hok
    subst hr
    simp only [fullResult]
    exact finalScoreOf_le (detScoreOf env ti) ai.trustScore
      (websiteScreenshotOf env) ai.visualAnalysis

/-- C2: known-offender fast path — with the creator address (mint authority,
else freeze authority) present in the offender registry, investigate returns
exactly the registry-synthesized result with score 0 and the most severe
verdict, and issues neither the market, audit, holder, screenshot or
creator-history fetches nor the AI call. -/
theorem claim2_known_offender_fast_path (env : Env) (ti : TokenInfo)
    (ks : ScammerRecord) (r : InvestigationResult) (effs : List Effect)
    (hc : env.cached = none) (hv : env.validKey = true) (hti : env.tokenInfo = some ti)
    (hcr : jsTruthy (jsOr ti.mintAuthority ti.freezeAuthority) = true)
    (hks : env.knownScammer = some ks)
    (hok : investigate env = Except.ok (r, effs)) :
    r = buildKnownScammerResult env.tokenAddress ti
          (Option.getD (jsOr ti.mintAuthority ti.freezeAuthority) "") ks
  ∧ InvestigationResult.trustScore r = 0
  ∧ InvestigationResult.verdict r = Verdict.danger
  ∧ effs = [Effect.fetchTokenInfo, Effect.checkScammer]
  ∧ Effect.fetchDex ∉ effs ∧ Effect.fetchRugCheck ∉ effs
  ∧ Effect.fetchHolders ∉ effs ∧ Effect.fetchScreenshot ∉ effs
  ∧ Effect.fetchCreatorHistory ∉ effs ∧ Effect.aiCall ∉ effs := by
  rw [investigate_scammer_eq env ti ks hc hv hti hcr hks] at hok
  simp only [Except.ok.injEq, Prod.mk.injEq] at hok
  obtain ⟨hr, he⟩ := hok
  subst hr
  subst he
  refine ⟨rfl, rfl, rfl, rfl, ?_, ?_, ?_, ?_, ?_, ?_⟩ <;> decide

/-- C5: the template-abuse override fires only on a captured screenshot — when
the pipeline screenshot is null the final score is exactly the minimum of the
deterministic and AI scores, even when the AI visual text asserts reuse. -/
theorem claim5_nuke_requires_screenshot (env : Env) (ti : TokenInfo)
    (ai : UnifiedAnalysisResult) (r : InvestigationResult) (effs : List Effect)
    (hc : env.cached = none) (hti : env.tokenInfo = some ti)
    (hks : env.knownScammer = none) (hai : env.aiResult = some ai)
    (hws : websiteScreenshotOf env = none)
    (hok : investigate env = Except.ok (r, effs)) :
    InvestigationResult.trustScore r
      = min (detScoreOf env ti) (UnifiedAnalysisResult.trustScore ai) := by
  cases hv : env.validKey with
  | false => simp [investigate, hc, hv] at hok
  | true =>
    rw [investigate_full_eq env ti ai hc hv hti hks hai] at hok
    simp only [Except.ok.injEq, Prod.mk.injEq] at hok
    obtain ⟨hr, he⟩ := hok
    subst hr
    simp only [fullResult, hws]
    unfold finalScoreOf nukeCondition
    simp [jsTruthy]

/-- C6: verdict tiering invariant — every result investigate returns past the
cache (full pipeline and known-offender fast path alike) has verdict Safe
exactly when the score is at least 70, Caution exactly on [40, 70), and
Danger exactly below 40. -/
theorem claim6_verdict_tiering (env : Env) (r : InvestigationResult)
    (effs : List Effect) (hc : env.cached = none)
    (hok : investigate env = Except.ok (r, effs)) :
    (InvestigationResult.verdict r = Verdict.safe
        ↔ 70 ≤ InvestigationResult.trustScore r)
  ∧ (InvestigationResult.verdict r = Verdict.caution
        ↔ 40 ≤ InvestigationResult.trustScore r
            ∧ InvestigationResult.trustScore r < 70)
  ∧ (InvestigationResult.verdict r = Verdict.danger
        ↔ InvestigationResult.trustScore r < 40) := by
  cases hv : env.validKey with
  | false => simp [investigate, hc, hv] at hok
  | true =>
    cases hti : env.tokenInfo with
    | none => simp [investigate, hc, hv, hti] at hok
    | some ti =>
      cases hcr : jsTruthy (jsOr ti.mintAuthority ti.freezeAuthority) with
      | true =>
        cases hks : env.knownScammer with
        | some ks =>
          rw [investigate_scammer_eq env ti ks hc hv hti hcr hks] at hok
          simp only [Except.ok.injEq, Prod.mk.injEq] at hok
          obtain ⟨hr, he⟩ := hok
          subst hr
          refine ⟨?_, ?_, ?_⟩ <;> simp [buildKnownScammerResult]
        | none =>
          cases hai : env.aiResult with
          | none => simp [investigate, hc, hv, hti, hcr, hks, hai, fullPipeline] at hok
          | some ai =>
            rw [investigate_full_eq env ti ai hc hv hti hks hai] at hok
            simp only [Except.ok.injEq, Prod.mk.injEq] at hok
            obtain ⟨hr, he⟩ := hok
            subst hr
            simpa [fullResult] using
              tierVerdict_spec (finalScoreOf (detScoreOf env ti) ai.trustScore
                (websiteScreenshotOf env) ai.visualAnalysis)
      | false =>
        cases hks : env.knownScammer with
        | some ks =>
          cases hai : env.aiResult with
          | none => simp [investigate, hc, hv, hti, hcr, hai, fullPipeline] at hok
          | some ai =>
            have heq : investigate env
                = Except.ok (fullResult env ti ai,
                    fullEffects env [Effect.fetchTokenInfo]
                      (InvestigationResult.verdict (fullResult env ti ai)) false) := by
              simp [investigate, hc, hv, hti, hcr, hai, fullPipeline]
            rw [heq] at hok
            simp only [Except.ok.injEq, Prod.mk.injEq] at hok
            obtain ⟨hr, he⟩ := hok
            subst hr
            simpa [fullResult] using
              tierVerdict_spec (finalScoreOf (detScoreOf env ti) ai.trustScore
                (websiteScreenshotOf env) ai.visualAnalysis)
        | none =>
          cases hai : env.aiResult with
          | none => simp [investigate, hc, hv, hti, hcr, hks, hai, fullPipeline] at hok
          | some ai =>
            rw [investigate_full_eq env ti ai hc hv hti hks hai] at hok
            simp only [Except.ok.injEq, Prod.mk.injEq] at hok
            obtain ⟨hr, he⟩ := hok
            subst hr
            simpa [fullResult] using
              tierVerdict_spec (finalScoreOf (detScoreOf env ti) ai.trustScore
                (websiteScreenshotOf env) ai.visualAnalysis)

/-! ## Concrete sample environments for witnesses -/

/-- Sample ledger facts: a mint authority set, no freeze authority. -/
def sampleTokenInfo : TokenInfo :=
  TokenInfo.mk (some "MintAuthority1") none 1000000 0

/-- Sample AI judgment asserting visual-asset reuse in its text. -/
def sampleAi : UnifiedAnalysisResult :=
  UnifiedAnalysisResult.mk 80 "summary" "profile" "degen"
    (some "VISUAL ASSET REUSE: YES. Copied storefront design.")

/-- Sample socials without a website. -/
def sampleSocials : TokenSocials :=
  TokenSocials.mk (some "Tok") (some "TK") none none none none none

/-- Sample trading-pair data (thin liquidity, 72 hours old). -/
def samplePair : DexScreenerPairData :=
  DexScreenerPairData.mk 400 100000 10 5 2 0 0 72

/-- Sample full-pipeline environment: cache miss, no registry hit, AI present,
no screenshot. -/
def sampleEnv : Env :=
  Env.mk "TokenAddr" none true (some sampleTokenInfo) none
    (DexScreenerResult.mk sampleSocials (some samplePair)) none
    (HolderResult.mk [] 80) none 0 (some sampleAi)

/-- Sample registry record of a previously flagged creator. -/
def scamRecordSample : ScammerRecord :=
  ScammerRecord.mk (some "OldRug") "2025-01-01" 3

/-- Sample environment whose creator address has a registry record. -/
def scamEnv : Env :=
  { sampleEnv with knownScammer := some scamRecordSample }

/-- Witness for C1 on the sample full-pipeline environment. -/
theorem claim1_ceiling_invariant_witness :
    InvestigationResult.trustScore (fullResult sampleEnv sampleTokenInfo sampleAi)
        ≤ detScoreOf sampleEnv sampleTokenInfo
  ∧ InvestigationResult.trustScore (fullResult sampleEnv sampleTokenInfo sampleAi)
        ≤ UnifiedAnalysisResult.trustScore sampleAi :=
  claim1_ceiling_invariant sampleEnv sampleTokenInfo sampleAi _ _ rfl rfl rfl rfl
    (investigate_full_eq sampleEnv sampleTokenInfo sampleAi rfl rfl rfl rfl rfl)

/-- Witness for C2 on the sample registry-hit environment. -/
theorem claim2_known_offender_fast_path_witness :
    InvestigationResult.trustScore
        (buildKnownScammerResult (Env.tokenAddress scamEnv) sampleTokenInfo
          (Option.getD
            (jsOr (TokenInfo.mintAuthority sampleTokenInfo)
              (TokenInfo.freezeAuthority sampleTokenInfo)) "") scamRecordSample) = 0
  ∧ InvestigationResult.verdict
        (buildKnownScammerResult (Env.tokenAddress scamEnv) sampleTokenInfo
          (Option.getD
            (jsOr (TokenInfo.mintAuthority sampleTokenInfo)
              (TokenInfo.freezeAuthority sampleTokenInfo)) "") scamRecordSample)
      = Verdict.danger
  ∧ Effect.aiCall ∉ [Effect.fetchTokenInfo, Effect.checkScammer] :=
  have h := claim2_known_offender_fast_path scamEnv sampleTokenInfo scamRecordSample
    _ _ rfl rfl rfl rfl rfl
    (investigate_scammer_eq scamEnv sampleTokenInfo scamRecordSample rfl rfl rfl rfl rfl)
  ⟨h.2.1, h.2.2.1, h.2.2.2.2.2.2.2.2.2⟩

/-- Witness for C5 on the sample environment (no screenshot, AI text asserting
reuse): the score stays at the plain minimum. -/
theorem claim5_nuke_requires_screenshot_witness :
    InvestigationResult.trustScore (fullResult sampleEnv sampleTokenInfo sampleAi)
      = min (detScoreOf sampleEnv sampleTokenInfo)
          (UnifiedAnalysisResult.trustScore sampleAi) :=
  claim5_nuke_requires_screenshot sampleEnv sampleTokenInfo sampleAi _ _
    rfl rfl rfl rfl rfl
    (investigate_full_eq sampleEnv sampleTokenInfo sampleAi rfl rfl rfl rfl rfl)

/-- Witness for C6 on the sample full-pipeline environment. -/
theorem claim6_verdict_tiering_witness :
    (InvestigationResult.verdict (fullResult sampleEnv sampleTokenInfo sampleAi)
          = Verdict.safe
        ↔ 70 ≤ InvestigationResult.trustScore (fullResult sampleEnv sampleTokenInfo sampleAi))
  ∧ (InvestigationResult.verdict (fullResult sampleEnv sampleTokenInfo sampleAi)
          = Verdict.caution
        ↔ 40 ≤ InvestigationResult.trustScore (fullResult sampleEnv sampleTokenInfo sampleAi)
            ∧ InvestigationResult.trustScore (fullResult sampleEnv sampleTokenInfo sampleAi) < 70)
  ∧ (InvestigationResult.verdict (fullResult sampleEnv sampleTokenInfo sampleAi)
          = Verdict.danger
        ↔ InvestigationResult.trustScore (fullResult sampleEnv sampleTokenInfo sampleAi) < 40) :=
  claim6_verdict_tiering sampleEnv _ _ rfl
    (investigate_full_eq sampleEnv sampleTokenInfo sampleAi rfl rfl rfl rfl rfl)

/-! ## Audit-report fetch error handling (src/lib/api/rugcheck.ts) -/

/-- One raw risk entry of the audit-service JSON body. -/
structure RcRiskJson where
  name : Option String
  description : Option String
  level : Option String
  score : Option ℚ
  deriving DecidableEq

/-- The tokenMeta object of the audit-service JSON body. -/
structure RcTokenMetaJson where
  name : Option String
  symbol : Option String
  creator : Option String
  updateAuthority : Option String
  deriving DecidableEq

/-- The audit-service JSON body, restricted to the fields fetchRugCheck reads. -/
structure RcJson where
  score : Option ℚ
  risks : Option (List RcRiskJson)
  creator : Option String
  deployer : Option String
  tokenMeta : Option RcTokenMetaJson
  deriving DecidableEq

/-- The creator/deployer extraction chain of fetchRugCheck (lines 220-225). -/
def rcCreatorOf (data : RcJson) : Option String :=
  jsOr data.creator (jsOr data.deployer
    (jsOr (Option.bind data.tokenMeta RcTokenMetaJson.creator)
      (Option.bind data.tokenMeta RcTokenMetaJson.updateAuthority)))

/-- The structured-report construction of fetchRugCheck (lines 228-242). -/
def buildRugCheckReport (tokenAddress : String) (data : RcJson) : RugCheckReport :=
  { score := Option.getD data.score 0
    risks :=
      match data.risks with
      | some rs =>
        List.map (fun r =>
          RugCheckRisk.mk (jsOrD (RcRiskJson.name r) "Unknown Risk")
            (jsOrD (RcRiskJson.description r) "")
            (jsOrD (RcRiskJson.level r) "info")
            (Option.getD (RcRiskJson.score r) 0)) rs
      | none => []
    creator := rcCreatorOf data
    mint := some tokenAddress
    metaName := Option.bind data.tokenMeta RcTokenMetaJson.name
    metaSymbol := Option.bind data.tokenMeta RcTokenMetaJson.symbol }

/-- How a single upstream audit fetch settles: a completed HTTP response with
a status code and (when ok) a parsed body, or a raised error (network failure,
the 5-second timeout, or a JSON parse failure -- all of which land in the
same catch block of the source). -/
inductive RcUpstream where
  | response (status : Nat) (body : RcJson)
  | thrown
  deriving DecidableEq

/-- Embedding of one fetchRugCheck call (rugcheck.ts lines 160-273) against a
given live cache entry for the subject and a given upstream outcome. Returns
the value handed to the caller, the cache write performed (none = no write;
some v = the value v written under a fresh 30-second TTL), and whether an
outbound request was issued. The in-flight promise deduplication of the
source is modelled separately as the shared dedup state machine. -/
def fetchRugCheckStep (tokenAddress : String)
    (cache : Option (Option RugCheckReport)) (upstream : RcUpstream) :
    Option RugCheckReport × Option (Option RugCheckReport) × Bool :=
  match cache with
  | some cachedValue => (cachedValue, none, false)
  | none =>
    match upstream with
    | RcUpstream.thrown => (none, some none, true)
    | RcUpstream.response status body =>
      if 200 ≤ status ∧ status < 300 then
        let report := buildRugCheckReport tokenAddress body
        (some report, some (some report), true)
      else if status = 404 then (none, some none, true)
      else if status = 429 then (none, none, true)
      else (none, some none, true)

/-- C7: audit-fetch error handling — a 404 returns null and caches null; a 429
returns null without writing the cache (and, since only an empty cache
consults the upstream, the next call re-attempts the fetch); any other non-ok
status returns null and caches null; a thrown error or timeout returns null
and caches null; and every cache-miss call, of any outcome, returns a value
instead of raising. -/
theorem claim7_rugcheck_error_handling :
    (∀ (a : String) (b : RcJson),
        fetchRugCheckStep a none (RcUpstream.response 404 b) = (none, some none, true))
  ∧ (∀ (a : String) (b : RcJson),
        fetchRugCheckStep a none (RcUpstream.response 429 b) = (none, none, true))
  ∧ (∀ (a : String) (s : Nat) (b : RcJson), ¬(200 ≤ s ∧ s < 300) → s ≠ 404 → s ≠ 429 →
        fetchRugCheckStep a none (RcUpstream.response s b) = (none, some none, true))
  ∧ (∀ a : String,
        fetchRugCheckStep a none RcUpstream.thrown = (none, some none, true))
  ∧ (∀ (a : String) (u : RcUpstream),
        (fetchRugCheckStep a none u).2.2 = true) := by
  refine ⟨?_, ?_, ?_, ?_, ?_⟩
  · intro a b
    simp [fetchRugCheckStep]
  · intro a b
    simp [fetchRugCheckStep]
  · intro a s b h1 h2 h3
    simp only [fetchRugCheckStep]
    rw [if_neg h1, if_neg h2, if_neg h3]
  · intro a
    rfl
  · intro a u
    cases u with
    | thrown => rfl
    | response status body =>
      simp only [fetchRugCheckStep]
      split_ifs <;> rfl

/-- Witness for C7 at concrete outcomes (status 500 for the generic error
case). -/
theorem claim7_rugcheck_error_handling_witness :
    fetchRugCheckStep "Tok" none
        (RcUpstream.response 404 (RcJson.mk none none none none none))
      = (none, some none, true)
  ∧ fetchRugCheckStep "Tok" none
        (RcUpstream.response 429 (RcJson.mk none none none none none))
      = (none, none, true)
  ∧ fetchRugCheckStep "Tok" none
        (RcUpstream.response 500 (RcJson.mk none none none none none))
      = (none, some none, true)
  ∧ fetchRugCheckStep "Tok" none RcUpstream.thrown = (none, some none, true)
  ∧ (fetchRugCheckStep "Tok" none
        (RcUpstream.response 429 (RcJson.mk none none none none none))).2.2 = true :=
  ⟨claim7_rugcheck_error_handling.1 "Tok" (RcJson.mk none none none none none),
   claim7_rugcheck_error_handling.2.1 "Tok" (RcJson.mk none none none none none),
   claim7_rugcheck_error_handling.2.2.1 "Tok" 500 (RcJson.mk none none none none none)
     (by omega) (by omega) (by omega),
   claim7_rugcheck_error_handling.2.2.2.1 "Tok",
   claim7_rugcheck_error_handling.2.2.2.2 "Tok"
     (RcUpstream.response 429 (RcJson.mk none none none none none))⟩

/-! ## In-flight request deduplication
(the shared pattern of fetchDexScreenerData, dexscreener.ts lines 54-168, and
fetchRugCheck, rugcheck.ts lines 160-273: a result cache consulted first, then
an in-flight promise map consulted before issuing a new outbound request; the
promise is stored before the first await and deleted after settling) -/

/-- Shared per-subject state of a deduplicated fetcher: the live (unexpired)
result-cache entry, the in-flight promise for the subject if one is pending,
a fresh-promise counter, and the count of outbound requests issued so far. -/
structure InflightState (α : Type) where
  cacheLive : Option α
  inflight : Option Nat
  nextId : Nat
  outbound : Nat

/-- What a caller of the deduplicated fetcher ends up holding after its
synchronous prologue: a completed cached value, or the identifier of the
promise it awaits. -/
inductive FetchHandle (α : Type) where
  | gotCached (value : α)
  | awaiting (id : Nat)
  deriving DecidableEq

/-- The synchronous prologue of one call (steps 1-3 of both fetchers, executed
atomically under the single-threaded cooperative scheduler up to the first
await): cache hit returns the cached value; an in-flight promise is returned
as-is; otherwise a new promise is registered and one outbound request is
issued. -/
def dedupStart {α : Type} (s : InflightState α) : InflightState α × FetchHandle α :=
  match s.cacheLive with
  | some v => (s, FetchHandle.gotCached v)
  | none =>
    match s.inflight with
    | some id => (s, FetchHandle.awaiting id)
    | none =>
      (InflightState.mk none (some s.nextId) (s.nextId + 1) (s.outbound + 1),
       FetchHandle.awaiting s.nextId)

/-- Settling of the in-flight promise with value v: the result cache is
populated and the finally-block deletes the in-flight entry. Every caller
awaiting that promise observes the same settled value v. -/
def dedupResolve {α : Type} (s : InflightState α) (v : α) : InflightState α :=
  InflightState.mk (some v) none s.nextId s.outbound

/-- C8: in-flight deduplication — when a second caller requests the same
subject while the first caller's fetch is still outstanding, it is handed the
very promise the first caller awaits (so both observe the same settled
result), no new promise is registered, the state is unchanged, and only one
outbound request in total has been issued. -/
theorem claim8_inflight_dedup {α : Type} (s0 : InflightState α)
    (hcache : s0.cacheLive = none) (hinflight : s0.inflight = none) :
    (dedupStart s0).2 = FetchHandle.awaiting s0.nextId
  ∧ (dedupStart (dedupStart s0).1).2 = (dedupStart s0).2
  ∧ (dedupStart (dedupStart s0).1).1 = (dedupStart s0).1
  ∧ (InflightState.outbound (dedupStart (dedupStart s0).1).1)
      = InflightState.outbound s0 + 1
  ∧ ∀ v : α, InflightState.cacheLive (dedupResolve (dedupStart (dedupStart s0).1).1 v)
      = some v := by
  refine ⟨?_, ?_, ?_, ?_, ?_⟩ <;>
    simp [dedupStart, dedupResolve, hcache, hinflight]

/-- Witness for C8 on a fresh state (instantiated at the audit-report payload
type). -/
theorem claim8_inflight_dedup_witness :
    (dedupStart (InflightState.mk (α := Option RugCheckReport) none none 0 0)).2
        = FetchHandle.awaiting 0
  ∧ (dedupStart (dedupStart (InflightState.mk (α := Option RugCheckReport) none none 0 0)).1).2
        = (dedupStart (InflightState.mk (α := Option RugCheckReport) none none 0 0)).2
  ∧ (dedupStart (dedupStart (InflightState.mk (α := Option RugCheckReport) none none 0 0)).1).1
        = (dedupStart (InflightState.mk (α := Option RugCheckReport) none none 0 0)).1
  ∧ (InflightState.outbound
        (dedupStart (dedupStart (InflightState.mk (α := Option RugCheckReport) none none 0 0)).1).1)
        = InflightState.outbound (InflightState.mk (α := Option RugCheckReport) none none 0 0) + 1
  ∧ ∀ v : Option RugCheckReport,
      InflightState.cacheLive
          (dedupResolve
            (dedupStart (dedupStart (InflightState.mk (α := Option RugCheckReport) none none 0 0)).1).1 v)
        = some v :=
  claim8_inflight_dedup (InflightState.mk none none 0 0) rfl rfl

end Veritas
